import Mathlib

/-!
Verification of the caching and data-retrieval layer of the Olist dashboard
repository, a shallow embedding of `olist_dashboard/data/cache_manager.py`
(class `CacheManager` and the module-level function `smart_cache_query`).

Modelling conventions:
* Python values that appear as cache-key material are the inductive `PyVal`;
  `PyVal.pyRepr` mirrors Python `str`/`repr` on those values (string escaping
  inside quotes is not modelled; no claim depends on it).
* Timestamps are integers (seconds); `datetime.now() - timestamp >
  timedelta(seconds=ttl)` becomes `now - timestamp > ttl` over `Int`.
* The cache directory is an association list from file key to file content;
  a file is either a well-formed pickled entry (`FileContent.ok`) or bytes
  that `pickle.load` fails on (`FileContent.corrupt`).
* `md5` itself is kept abstract as a `String → String` parameter: the claims
  under study concern only the canonical key string fed to it, and md5 is a
  fixed function of its input (no process-random seeding).
-/

namespace CacheSpec

/-- Python argument values usable as cache-key material. -/
inductive PyVal where
  | int (n : Int)
  | str (s : String)
  | bool (b : Bool)
  | pynone
deriving DecidableEq, Repr

/-- The single-quote character, written via its code point. -/
def squote : String := String.singleton (Char.ofNat 39)

/-- Python `repr` of a `PyVal`, as used by `str(args)` on tuple elements. -/
def PyVal.pyRepr : PyVal → String
  | .int n => toString n
  | .str s => squote ++ s ++ squote
  | .bool b => if b then "True" else "False"
  | .pynone => "None"

/-- Join rendered items with a comma-space separator, as Python does inside
tuple and list `repr`. -/
def joinComma : List String → String
  | [] => ""
  | [x] => x
  | x :: xs => x ++ ", " ++ joinComma xs

/-- Python `str` of a tuple of rendered items (note the trailing comma of a
one-element tuple). -/
def pyTupleRepr : List String → String
  | [] => "()"
  | [x] => "(" ++ x ++ ",)"
  | xs => "(" ++ joinComma xs ++ ")"

/-- Python `str` of a list of rendered items. -/
def pyListRepr (xs : List String) : String :=
  "[" ++ joinComma xs ++ "]"

/-- Python `repr` of one `(name, value)` pair of `kwargs.items()`. -/
def pairRepr (p : String × PyVal) : String :=
  "(" ++ (squote ++ p.1 ++ squote) ++ ", " ++ p.2.pyRepr ++ ")"

/-- Ordering used by `sorted(kwargs.items())`: Python compares the pairs as
tuples, which on the distinct keys of a `kwargs` dict never goes past the
first component, so the comparison is by key name. -/
def kvLe (a b : String × PyVal) : Prop := a.1 ≤ b.1

instance : DecidableRel kvLe := fun a b => by
  unfold kvLe; infer_instance

instance : IsTotal (String × PyVal) kvLe :=
  ⟨fun a b => le_total a.1 b.1⟩

instance : IsTrans (String × PyVal) kvLe :=
  ⟨fun _ _ _ hab hbc => le_trans hab hbc⟩

/-- Embeds `sorted(kwargs.items())`. -/
def sortKwargs (kw : List (String × PyVal)) : List (String × PyVal) :=
  List.insertionSort kvLe kw

/-- Embeds the canonicalization step of `CacheManager._generate_cache_key`: the string before hashing:
`key_string = str(args) + str(sorted(kwargs.items()))`. -/
def generate_cache_key_string (args : List PyVal)
    (kwargs : List (String × PyVal)) : String :=
  pyTupleRepr (args.map PyVal.pyRepr)
    ++ pyListRepr ((sortKwargs kwargs).map pairRepr)

/-- Embeds `CacheManager._generate_cache_key`:
`hashlib.md5(key_string.encode()).hexdigest()`. The md5 hex digest is a
fixed deterministic function of the key string, abstracted as `md5hex`. -/
def generate_cache_key (md5hex : String → String) (args : List PyVal)
    (kwargs : List (String × PyVal)) : String :=
  md5hex (generate_cache_key_string args kwargs)

/-- Strict key ordering on kwarg pairs. -/
def kvLt (a b : String × PyVal) : Prop := a.1 < b.1

instance : IsAntisymm (String × PyVal) kvLt :=
  ⟨fun _ _ h1 h2 => absurd h2 (not_lt_of_gt h1)⟩

/-- Two lists of kwarg pairs with the same distinct keys sort identically:
sorting is a function of the multiset of pairs once keys are distinct. -/
theorem sortKwargs_perm_eq (kw₁ kw₂ : List (String × PyVal))
    (hnd : (kw₁.map Prod.fst).Nodup) (hp : kw₁.Perm kw₂) :
    sortKwargs kw₁ = sortKwargs kw₂ := by
  have hperm : (sortKwargs kw₁).Perm (sortKwargs kw₂) :=
    ((List.perm_insertionSort kvLe kw₁).trans hp).trans
      (List.perm_insertionSort kvLe kw₂).symm
  have hs₁ : List.Sorted kvLe (sortKwargs kw₁) :=
    List.sorted_insertionSort kvLe kw₁
  have hs₂ : List.Sorted kvLe (sortKwargs kw₂) :=
    List.sorted_insertionSort kvLe kw₂
  have hnd₁ : ((sortKwargs kw₁).map Prod.fst).Nodup :=
    (((List.perm_insertionSort kvLe kw₁).map Prod.fst).nodup_iff).mpr hnd
  have hnd₂ : ((sortKwargs kw₂).map Prod.fst).Nodup := by
    have : (kw₂.map Prod.fst).Nodup :=
      ((hp.map Prod.fst).nodup_iff).mp hnd
    exact (((List.perm_insertionSort kvLe kw₂).map Prod.fst).nodup_iff).mpr this
  have hne₁ : (sortKwargs kw₁).Pairwise (fun a b => a.1 ≠ b.1) :=
    (List.pairwise_map).mp hnd₁
  have hne₂ : (sortKwargs kw₂).Pairwise (fun a b => a.1 ≠ b.1) :=
    (List.pairwise_map).mp hnd₂
  have hlt₁ : List.Sorted kvLt (sortKwargs kw₁) :=
    (hs₁.and hne₁).imp (fun h => lt_of_le_of_ne h.1 h.2)
  have hlt₂ : List.Sorted kvLt (sortKwargs kw₂) :=
    (hs₂.and hne₂).imp (fun h => lt_of_le_of_ne h.1 h.2)
  exact List.eq_of_perm_of_sorted hperm hlt₁ hlt₂

/-! ### Disk cache store -/

/-- Embeds `CACHE_CONFIG["ttl"]` from `config/settings.py`: the 1-hour default. -/
def CACHE_CONFIG_ttl : Nat := 3600

/-- A tabular query result (polars `DataFrame`): named columns and rows.
`is_empty` is true exactly when there are no rows, as in polars. -/
structure Payload where
  cols : List String
  rows : List (List PyVal)
deriving DecidableEq, Repr

/-- polars `DataFrame.is_empty`. -/
def Payload.is_empty (p : Payload) : Bool := p.rows.isEmpty

/-- The pickled dict `{data, timestamp, ttl}` written by
`save_to_disk_cache`. Entries written by the code always carry both a
timestamp and a ttl. -/
structure CacheEntry where
  data : Payload
  timestamp : Int
  ttl : Nat
deriving DecidableEq, Repr

/-- Content of one `.pkl` file in the cache directory: either a readable
pickled entry, or bytes on which `pickle.load` (or the surrounding read)
raises. -/
inductive FileContent where
  | ok (e : CacheEntry)
  | corrupt
deriving DecidableEq, Repr

/-- The cache directory: association list from cache key to file content,
in `os.listdir` order. File names in the directory are distinct. -/
abbrev FS := List (String × FileContent)

/-- Directory lookup of the file for a key (`os.path.exists` + read). -/
def lookupFile : FS → String → Option FileContent
  | [], _ => none
  | (k, c) :: rest, key => if k = key then some c else lookupFile rest key

/-- Python `os.remove` of the file for a key. -/
def removeFile : FS → String → FS
  | [], _ => []
  | (k, c) :: rest, key =>
    if k = key then removeFile rest key else (k, c) :: removeFile rest key

/-- Python `open(cache_file, "wb")` plus write: create or overwrite the keyed file. -/
def setFile (fs : FS) (key : String) (c : FileContent) : FS :=
  (key, c) :: removeFile fs key

/-- The TTL check of `load_from_disk_cache`:
`datetime.now() - timestamp > timedelta(seconds=ttl_seconds)`. -/
def expired (now : Int) (e : CacheEntry) : Bool :=
  now - e.timestamp > (e.ttl : Int)

/-- Embeds `CacheManager.load_from_disk_cache`. Returns the cached payload when
present and within TTL, `None` otherwise; an expired file is removed
(lazy eviction); a file on which the read raises is caught by the
`except` clause, which logs and returns `None` leaving the file as it is.
Result: `(return value, cache directory afterwards)`. -/
def load_from_disk_cache (now : Int) (fs : FS) (key : String) :
    Option Payload × FS :=
  match lookupFile fs key with
  | none => (none, fs)
  | some .corrupt => (none, fs)
  | some (.ok e) =>
    if expired now e then (none, removeFile fs key)
    else (some e.data, fs)

/-- Embeds `CacheManager.save_to_disk_cache` at the level of whole entries:
pickles `{data, timestamp := now, ttl := ttl_seconds or CACHE_CONFIG["ttl"]}`
into the keyed file and returns `True`. (`ttl = none` is Python
`ttl_seconds=None`; the byte-level write is modelled separately below.) -/
def save_to_disk_cache (now : Int) (fs : FS) (key : String) (d : Payload)
    (ttl : Option Nat) : Bool × FS :=
  (true,
    setFile fs key (.ok { data := d, timestamp := now,
                          ttl := ttl.getD CACHE_CONFIG_ttl }))

/-! ### Smart cache wrapper -/

/-- Outcome of one invocation of the `query_func` passed to
`smart_cache_query`: it either raises, or returns an optional DataFrame
(`execute_query` itself returns `None` on failure). -/
inductive QueryResult where
  | raises
  | returns (r : Option Payload)
deriving DecidableEq, Repr

/-- Embeds `smart_cache_query`: try the disk cache; on miss invoke the query
function once; cache the result only when it is neither `None` nor empty;
an exception from the query function is caught, logged, and turned into a
`None` return. Result: `(return value, cache directory afterwards, number
of times query_func was invoked)`. -/
def smart_cache_query (now : Int) (fs : FS) (key : String)
    (qr : QueryResult) (ttl : Option Nat) : Option Payload × FS × Nat :=
  match load_from_disk_cache now fs key with
  | (some d, fs') => (some d, fs', 0)
  | (none, fs') =>
    match qr with
    | .raises => (none, fs', 1)
    | .returns none => (none, fs', 1)
    | .returns (some p) =>
      if p.is_empty then (some p, fs', 1)
      else (some p, (save_to_disk_cache now fs' key p ttl).2, 1)

/-! ### Expired-cache sweep and statistics -/

/-- Whether `clear_expired_cache` removes a file: a readable entry is
removed when expired, an unreadable file is removed by the inner `except`
handler. -/
def shouldRemove (now : Int) : FileContent → Bool
  | .ok e => expired now e
  | .corrupt => true

/-- Outcome of the sweep loop of `clear_expired_cache`: the internal
`cleared_count` (only logged by the code), the directory afterwards, and
whether the loop visited every file or was cut short by an exception that
escaped to the outer handler. -/
structure SweepOutcome where
  cleared : Nat
  fs : FS
  completed : Bool
deriving DecidableEq, Repr

/-- The `for cache_file in cache_files` loop of `clear_expired_cache`.
`rf k = true` models `os.remove` raising on file `k` (permission, etc.):
for an expired entry the raise occurs inside the inner `try` and the
inner `except` retries the same `os.remove`, which raises again; for an
unreadable file the raise occurs inside the inner `except` itself. Either
way the exception escapes the inner handler, so the outer `except` catches
it and the function ends with the remaining files unvisited. -/
def sweepGo (now : Int) (rf : String → Bool) :
    List (String × FileContent) → Nat → SweepOutcome
  | [], c => ⟨c, [], true⟩
  | (k, fc) :: rest, c =>
    match fc with
    | .ok e =>
      if expired now e then
        if rf k then ⟨c, (k, fc) :: rest, false⟩
        else sweepGo now rf rest (c + 1)
      else
        let r := sweepGo now rf rest c
        ⟨r.cleared, (k, fc) :: r.fs, r.completed⟩
    | .corrupt =>
      if rf k then ⟨c, (k, fc) :: rest, false⟩
      else sweepGo now rf rest (c + 1)

/-- Embeds `CacheManager.clear_expired_cache`. The Python function body has no
`return` statement, so the caller always receives `None`; the first
component records that return value, the second the effect of the sweep
loop. -/
def clear_expired_cache (now : Int) (rf : String → Bool) (fs : FS) :
    Option Nat × SweepOutcome :=
  (none, sweepGo now rf fs 0)

/-- The validity test of `get_cache_stats`:
`now - timestamp <= timedelta(seconds=ttl)` on a readable entry; a file the
inner `try` cannot read is skipped by `continue` and never counted valid. -/
def valid_entry (now : Int) : FileContent → Bool
  | .ok e => now - e.timestamp ≤ (e.ttl : Int)
  | .corrupt => false

/-- The statistics dict of `get_cache_stats` (the float `hit_rate` and the
megabyte rounding of `total_size_mb` are presentation only and are not
modelled; `total_size` is the raw byte sum). -/
structure CacheStats where
  total_files : Nat
  valid_files : Nat
  total_size : Nat
deriving DecidableEq, Repr

/-- Embeds `CacheManager.get_cache_stats`. `sz` gives each file's size
(`os.path.getsize`); `gf k = true` models `getsize` raising on file `k`.
The size sum runs inside the outer `try` before the per-file loop, so a
`getsize` failure on any file escapes to the outer handler, which returns
the empty dict (modelled as `none`). Unreadable files inside the loop are
skipped per-entry by `continue`. -/
def get_cache_stats (now : Int) (sz : String → Nat) (gf : String → Bool)
    (fs : FS) : Option CacheStats :=
  if fs.any (fun q => gf q.1) then none
  else some
    { total_files := fs.length
      valid_files := (fs.filter (fun q => valid_entry now q.2)).length
      total_size := (fs.map (fun q => sz q.1)).sum }

/-! ### Byte-level model of the disk write (atomicity of `put`) -/

/-- Embeds `CacheManager._get_cache_file_path`. -/
def cache_file_path (key : String) : String :=
  ".streamlit_cache/" ++ key ++ ".pkl"

/-- File-system micro-operations during a write. The operation language
includes `renameFile` so that a write-to-temp-then-rename discipline is
expressible; the source never performs one. -/
inductive FileOp where
  | openTrunc (path : String)
  | writeByte (path : String) (b : Nat)
  | renameFile (src dst : String)
deriving DecidableEq, Repr

/-- Directory contents at the byte level: path to file bytes. -/
abbrev FSB := List (String × List Nat)

def lookupBytes : FSB → String → Option (List Nat)
  | [], _ => none
  | (k, c) :: rest, key => if k = key then some c else lookupBytes rest key

def removeBytes : FSB → String → FSB
  | [], _ => []
  | (k, c) :: rest, key =>
    if k = key then removeBytes rest key else (k, c) :: removeBytes rest key

def setBytes (fs : FSB) (key : String) (c : List Nat) : FSB :=
  (key, c) :: removeBytes fs key

/-- Effect of one micro-operation on the directory. -/
def applyOp (fs : FSB) : FileOp → FSB
  | .openTrunc p => setBytes fs p []
  | .writeByte p b => setBytes fs p ((lookupBytes fs p).getD [] ++ [b])
  | .renameFile src dst =>
    match lookupBytes fs src with
    | none => fs
    | some c => setBytes (removeBytes fs src) dst c

def runOps (fs : FSB) (ops : List FileOp) : FSB :=
  ops.foldl applyOp fs

/-- The write performed by `save_to_disk_cache` at the byte level:
`open(cache_file, "wb")` truncates the file at its final name, then
`pickle.dump` streams the serialized bytes into it. -/
def save_to_disk_cache_ops (key : String) (bytes : List Nat) : List FileOp :=
  .openTrunc (cache_file_path key)
    :: bytes.map (FileOp.writeByte (cache_file_path key))

/-- Modelled from the spec: atomicity of a `put`, as §4.2 demands — at no
point during the operation sequence does the file under the key's final
name hold anything other than its original content or the complete
serialized bytes. -/
def atomic_put (key : String) (bytes : List Nat) (fs₀ : FSB) : Prop :=
  ∀ n, n ≤ (save_to_disk_cache_ops key bytes).length →
    lookupBytes (runOps fs₀ ((save_to_disk_cache_ops key bytes).take n))
        (cache_file_path key)
      = lookupBytes fs₀ (cache_file_path key)
    ∨ lookupBytes (runOps fs₀ ((save_to_disk_cache_ops key bytes).take n))
        (cache_file_path key)
      = some bytes

instance (k : String) (b : List Nat) (f : FSB) : Decidable (atomic_put k b f) := by
  unfold atomic_put
  infer_instance

/-! ### Helper lemmas -/

/-- A freshly written file is what a lookup finds. -/
theorem lookupFile_setFile (fs : FS) (key : String) (c : FileContent) :
    lookupFile (setFile fs key c) key = some c := by
  simp [setFile, lookupFile]

/-- After `os.remove`, the file is gone. -/
theorem lookupFile_removeFile (fs : FS) (key : String) :
    lookupFile (removeFile fs key) key = none := by
  induction fs with
  | nil => rfl
  | cons hd tl ih =>
    obtain ⟨k, c⟩ := hd
    by_cases h : k = key
    · simpa [removeFile, h] using ih
    · simpa [removeFile, lookupFile, h] using ih

/-- A disk-cache miss is stable: when `load_from_disk_cache` returns `None`,
another load of the same key against the resulting directory also returns
`None` and leaves the directory unchanged, at any later time. -/
theorem load_miss_stable (now now₂ : Int) (fs : FS) (key : String)
    (h : (load_from_disk_cache now fs key).1 = none) :
    load_from_disk_cache now₂ (load_from_disk_cache now fs key).2 key
      = (none, (load_from_disk_cache now fs key).2) := by
  cases hl : lookupFile fs key with
  | none => simp [load_from_disk_cache, hl]
  | some fc =>
    cases fc with
    | corrupt => simp [load_from_disk_cache, hl]
    | ok e =>
      cases hexp : expired now e with
      | false => simp [load_from_disk_cache, hl, hexp] at h
      | true => simp [load_from_disk_cache, hl, hexp, lookupFile_removeFile]

/-- Closed form of the sweep loop when no `os.remove` call fails: it visits
every file, removes exactly the expired and unreadable ones, and adds their
number to the running counter. -/
theorem sweepGo_noFault (now : Int) :
    ∀ (l : List (String × FileContent)) (c : Nat),
    sweepGo now (fun _ => false) l c =
      ⟨c + (l.filter (fun q => shouldRemove now q.2)).length,
       l.filter (fun q => !shouldRemove now q.2), true⟩ := by
  intro l
  induction l with
  | nil => intro c; simp [sweepGo]
  | cons hd tl ih =>
    intro c
    obtain ⟨k, fc⟩ := hd
    cases fc with
    | ok e =>
      cases hexp : expired now e with
      | true =>
        simp only [sweepGo, hexp, if_true, if_false, ih]
        simp [List.filter_cons, shouldRemove, hexp]
        omega
      | false =>
        simp only [sweepGo, hexp, ih]
        simp [List.filter_cons, shouldRemove, hexp]
    | corrupt =>
      simp only [sweepGo, ih]
      simp [List.filter_cons, shouldRemove]
      omega

/-- A freshly written byte file is what a byte lookup finds. -/
theorem lookupBytes_setBytes (fs : FSB) (p : String) (c : List Nat) :
    lookupBytes (setBytes fs p c) p = some c := by
  simp [setBytes, lookupBytes]

/-- Streaming a byte sequence into a file appends it to the file's
current content. -/
theorem runOps_write_bytes (p : String) :
    ∀ (bytes acc : List Nat) (fs : FSB), lookupBytes fs p = some acc →
    lookupBytes (runOps fs (bytes.map (FileOp.writeByte p))) p
      = some (acc ++ bytes) := by
  intro bytes
  induction bytes with
  | nil => intro acc fs h; simpa [runOps] using h
  | cons b bs ih =>
    intro acc fs h
    have hstep : lookupBytes (applyOp fs (FileOp.writeByte p b)) p
        = some (acc ++ [b]) := by
      simp [applyOp, h, lookupBytes_setBytes]
    have := ih (acc ++ [b]) (applyOp fs (FileOp.writeByte p b)) hstep
    simpa [runOps, List.append_assoc] using this

/-! ### Concrete fixtures used by witnesses and counterexamples -/

/-- A nonempty one-cell DataFrame. -/
def pay0 : Payload := ⟨["c"], [[.int 1]]⟩

/-- A DataFrame with a column and no rows: `is_empty` holds. -/
def payEmpty : Payload := ⟨["c"], []⟩

/-- A directory of ten readable entries: at `now = 100`, the four `e*`
entries are past their TTL and the six `v*` entries are within it. -/
def fsTen : FS :=
  [("e1", .ok ⟨pay0, 0, 10⟩), ("v1", .ok ⟨pay0, 95, 3600⟩),
   ("e2", .ok ⟨pay0, 5, 20⟩), ("v2", .ok ⟨pay0, 90, 3600⟩),
   ("e3", .ok ⟨pay0, 1, 50⟩), ("v3", .ok ⟨pay0, 99, 3600⟩),
   ("e4", .ok ⟨pay0, 2, 30⟩), ("v4", .ok ⟨pay0, 80, 3600⟩),
   ("v5", .ok ⟨pay0, 70, 3600⟩), ("v6", .ok ⟨pay0, 60, 3600⟩)]

/-! ### The claims -/

/-- C1. After a cold fetch (no disk entry for the key) whose query function
returns a cacheable result (neither `None` nor empty, the condition
`smart_cache_query` itself uses), the result is written to the cache, and
every subsequent `smart_cache_query` with the same key within the TTL
window returns the cached payload with zero further invocations of the
query function — whatever that function would now do — and leaves the
cache unchanged, so the fetch function runs exactly once per TTL window.
(The wrapper in the source consults only the disk tier; the in-memory
`st.cache_data` tier belongs to the UI framework.) -/
theorem claim1_cold_fetch_then_cached (now now₂ : Int) (fs : FS)
    (key : String) (p : Payload) (ttl : Option Nat) (qr₂ : QueryResult)
    (hmiss : lookupFile fs key = none) (hne : p.is_empty = false)
    (hwin : now₂ - now ≤ ((ttl.getD CACHE_CONFIG_ttl : Nat) : Int)) :
    smart_cache_query now fs key (.returns (some p)) ttl
      = (some p, setFile fs key (.ok ⟨p, now, ttl.getD CACHE_CONFIG_ttl⟩), 1)
    ∧ smart_cache_query now₂
        (setFile fs key (.ok ⟨p, now, ttl.getD CACHE_CONFIG_ttl⟩)) key qr₂ ttl
      = (some p, setFile fs key (.ok ⟨p, now, ttl.getD CACHE_CONFIG_ttl⟩), 0) := by
  have hexp : expired now₂ ⟨p, now, ttl.getD CACHE_CONFIG_ttl⟩ = false := by
    simp only [expired, decide_eq_false_iff_not, not_lt]
    exact hwin
  constructor
  · simp [smart_cache_query, load_from_disk_cache, hmiss, hne,
      save_to_disk_cache]
  · simp [smart_cache_query, load_from_disk_cache, lookupFile_setFile, hexp]

/-- Witness for C1 at a concrete cold cache and a 5-second-later re-fetch. -/
theorem claim1_witness :
    smart_cache_query 0 [] "k" (.returns (some pay0)) none
      = (some pay0, setFile [] "k" (.ok ⟨pay0, 0, CACHE_CONFIG_ttl⟩), 1)
    ∧ smart_cache_query 5 (setFile [] "k" (.ok ⟨pay0, 0, CACHE_CONFIG_ttl⟩))
        "k" .raises none
      = (some pay0, setFile [] "k" (.ok ⟨pay0, 0, CACHE_CONFIG_ttl⟩), 0) :=
  claim1_cold_fetch_then_cached 0 5 [] "k" pay0 none .raises
    (by decide) (by decide) (by decide)

/-- C2. The cache key generator is deterministic and keyword-argument-order
independent: for any hex-digest function (md5 is a fixed function of its
input, with no per-process seeding), any positional arguments, and any two
keyword-argument listings that are rearrangements of the same pairs with
distinct names (as in any Python `kwargs` dict), the generated keys are
equal. -/
theorem claim2_key_order_independent (md5hex : String → String)
    (args : List PyVal) (kw₁ kw₂ : List (String × PyVal))
    (hnd : (kw₁.map Prod.fst).Nodup) (hp : kw₁.Perm kw₂) :
    generate_cache_key md5hex args kw₁ = generate_cache_key md5hex args kw₂ := by
  unfold generate_cache_key generate_cache_key_string
  rw [sortKwargs_perm_eq kw₁ kw₂ hnd hp]

/-- Witness for C2: kwargs `a=1, b=2` against `b=2, a=1`. -/
theorem claim2_witness :
    generate_cache_key (fun s => s) [.int 3]
        [("a", .int 1), ("b", .int 2)]
      = generate_cache_key (fun s => s) [.int 3]
        [("b", .int 2), ("a", .int 1)] :=
  claim2_key_order_independent (fun s => s) [.int 3]
    [("a", .int 1), ("b", .int 2)] [("b", .int 2), ("a", .int 1)]
    (by decide) (by decide)

/-- C3. For a key holding a readable entry, a disk-cache load past the
entry's TTL (`now - timestamp > ttl`) returns `None` and removes the
underlying file (lazy eviction), while a load within the TTL returns the
stored payload unchanged and leaves the directory as it was. -/
theorem claim3_ttl_lazy_eviction (now : Int) (fs : FS) (key : String)
    (e : CacheEntry) (hlk : lookupFile fs key = some (.ok e)) :
    (expired now e = true →
      load_from_disk_cache now fs key = (none, removeFile fs key)
      ∧ lookupFile (removeFile fs key) key = none)
    ∧ (expired now e = false →
      load_from_disk_cache now fs key = (some e.data, fs)) := by
  constructor
  · intro hexp
    exact ⟨by simp [load_from_disk_cache, hlk, hexp],
           lookupFile_removeFile fs key⟩
  · intro hexp
    simp [load_from_disk_cache, hlk, hexp]

/-- Witness for C3: an entry written at time 0 with a 10-second TTL, read
at time 100 (evicted) and another read of a fresh entry at time 100
(served). -/
theorem claim3_witness :
    (load_from_disk_cache 100 [("k", .ok ⟨pay0, 0, 10⟩)] "k"
        = (none, removeFile [("k", .ok ⟨pay0, 0, 10⟩)] "k")
      ∧ lookupFile (removeFile [("k", .ok ⟨pay0, 0, 10⟩)] "k") "k" = none)
    ∧ load_from_disk_cache 100 [("f", .ok ⟨pay0, 95, 3600⟩)] "f"
        = (some pay0, [("f", .ok ⟨pay0, 95, 3600⟩)]) :=
  ⟨(claim3_ttl_lazy_eviction 100 [("k", .ok ⟨pay0, 0, 10⟩)] "k"
      ⟨pay0, 0, 10⟩ (by decide)).1 (by decide),
   by
    have := (claim3_ttl_lazy_eviction 100 [("f", .ok ⟨pay0, 95, 3600⟩)] "f"
      ⟨pay0, 95, 3600⟩ (by decide)).2 (by decide)
    simpa using this⟩

/-- C4 counterexample. The claimed atomicity fails: after the very first
micro-operation of a `put` into an empty directory (`open(file, "wb")`,
which truncates the file at its final name), the key's final file exists
with partial content — neither absent as before nor equal to the complete
serialized bytes. -/
theorem claim4_not_atomic_cex : ¬ atomic_put "k" [1, 2, 3] [] := by decide

/-- C4 amended. `save_to_disk_cache` serializes `{value, timestamp = now,
ttl}` under the key's file, and the write goes directly to the final name
(truncate, then stream the pickled bytes): the completed write leaves the
full serialization there, but the write is not atomic — when the key's
file did not previously exist, an interrupted put can leave a
partially-written file under the final name. -/
theorem claim4_direct_write (now : Int) (fs : FS) (key : String)
    (d : Payload) (ttl : Option Nat) (bytes : List Nat) (fs₀ : FSB) :
    lookupFile (save_to_disk_cache now fs key d ttl).2 key
      = some (.ok ⟨d, now, ttl.getD CACHE_CONFIG_ttl⟩)
    ∧ lookupBytes (runOps fs₀ (save_to_disk_cache_ops key bytes))
        (cache_file_path key) = some bytes
    ∧ (lookupBytes fs₀ (cache_file_path key) = none → bytes ≠ [] →
        ¬ atomic_put key bytes fs₀) := by
  refine ⟨by simp [save_to_disk_cache, lookupFile_setFile], ?_, ?_⟩
  · have h0 : lookupBytes (applyOp fs₀ (.openTrunc (cache_file_path key)))
        (cache_file_path key) = some [] := by
      simp [applyOp, lookupBytes_setBytes]
    have := runOps_write_bytes (cache_file_path key) bytes []
      (applyOp fs₀ (.openTrunc (cache_file_path key))) h0
    simpa [save_to_disk_cache_ops, runOps] using this
  · intro habs hne hatomic
    have h1 := hatomic 1 (by simp [save_to_disk_cache_ops])
    have htake : (save_to_disk_cache_ops key bytes).take 1
        = [.openTrunc (cache_file_path key)] := by
      simp [save_to_disk_cache_ops]
    rw [htake] at h1
    have hrun : lookupBytes (runOps fs₀ [.openTrunc (cache_file_path key)])
        (cache_file_path key) = some [] := by
      simp [runOps, applyOp, lookupBytes_setBytes]
    rw [hrun, habs] at h1
    rcases h1 with h1 | h1
    · exact Option.noConfusion h1
    · exact hne (Option.some.injEq _ _ ▸ h1).symm

/-- Witness for C4's amended statement: a one-byte payload into an empty
directory. -/
theorem claim4_witness :
    lookupBytes (runOps [] (save_to_disk_cache_ops "w" [7]))
        (cache_file_path "w") = some [7]
    ∧ ¬ atomic_put "w" [7] [] :=
  ⟨(claim4_direct_write 0 [] "w" pay0 none [7] []).2.1,
   (claim4_direct_write 0 [] "w" pay0 none [7] []).2.2 (by decide) (by decide)⟩

/-- C5 counterexample. A corrupt cache file is not deleted by a load: the
read failure is caught, `None` is returned, and the file is left in place,
so corruption does not self-heal on access (contrary to the claim that the
get deletes the corrupt file). -/
theorem claim5_corrupt_not_deleted_cex :
    load_from_disk_cache 0 [("k", .corrupt)] "k"
      = (none, [("k", .corrupt)])
    ∧ lookupFile [("k", .corrupt)] "k" = some .corrupt := by decide

/-- C5 amended. For a key whose on-disk bytes are unreadable, a disk-cache
load logs the failure and treats the entry as absent (returns `None`), but
leaves the corrupt file on disk; unreadable files are deleted only by
`clear_expired_cache`, not by `load_from_disk_cache`. -/
theorem claim5_corrupt_treated_absent (now : Int) (fs : FS) (key : String)
    (h : lookupFile fs key = some .corrupt) :
    load_from_disk_cache now fs key = (none, fs) := by
  simp [load_from_disk_cache, h]

/-- Witness for C5's amended statement: a two-file directory whose first
file is unreadable. -/
theorem claim5_witness :
    load_from_disk_cache 7 [("a", .corrupt), ("b", .ok ⟨pay0, 0, 10⟩)] "a"
      = (none, [("a", .corrupt), ("b", .ok ⟨pay0, 0, 10⟩)]) :=
  claim5_corrupt_treated_absent 7 [("a", .corrupt), ("b", .ok ⟨pay0, 0, 10⟩)]
    "a" (by decide)

/-- C6 counterexample. On a directory with 4 expired and 6 valid entries,
`clear_expired_cache` does remove exactly the 4 expired ones — the internal
counter reaches 4 and `get_cache_stats` afterwards reports 6 valid files —
but the function body has no `return` statement, so the caller receives
`None`, not the count 4. -/
theorem claim6_returns_none_cex :
    (clear_expired_cache 100 (fun _ => false) fsTen).1 ≠ some 4
    ∧ (clear_expired_cache 100 (fun _ => false) fsTen).1 = none
    ∧ (clear_expired_cache 100 (fun _ => false) fsTen).2.cleared = 4
    ∧ (clear_expired_cache 100 (fun _ => false) fsTen).2.fs
        = [("v1", .ok ⟨pay0, 95, 3600⟩), ("v2", .ok ⟨pay0, 90, 3600⟩),
           ("v3", .ok ⟨pay0, 99, 3600⟩), ("v4", .ok ⟨pay0, 80, 3600⟩),
           ("v5", .ok ⟨pay0, 70, 3600⟩), ("v6", .ok ⟨pay0, 60, 3600⟩)]
    ∧ get_cache_stats 100 (fun _ => 0) (fun _ => false)
        (clear_expired_cache 100 (fun _ => false) fsTen).2.fs
        = some ⟨6, 6, 0⟩ := by decide

/-- C6 amended. When no `os.remove` fails, `clear_expired_cache` scans all
entries and deletes exactly those whose TTL has elapsed together with the
unreadable ones, counting them internally (the count is only logged): with
4 expired and 6 valid readable entries it removes exactly 4 and leaves the
6 valid entries in place — but it returns `None` to the caller, not the
count. -/
theorem claim6_sweep_removes_expired_returns_none (now : Int) (fs : FS) :
    clear_expired_cache now (fun _ => false) fs
      = (none,
         ⟨(fs.filter (fun q => shouldRemove now q.2)).length,
          fs.filter (fun q => !shouldRemove now q.2), true⟩) := by
  unfold clear_expired_cache
  rw [sweepGo_noFault]
  simp

/-- C7 counterexample. A disk failure on a single entry can abort a whole
pass. Sweep: when `os.remove` raises on the unreadable first file `a` (the
raise happens inside the inner `except` handler and escapes to the outer
one), the pass stops, leaving even the expired entry `b` in place. Stats:
when `os.path.getsize` raises on file `a`, the whole `get_cache_stats`
call returns the empty dict instead of continuing over `b`. -/
theorem claim7_remove_failure_aborts_cex :
    (clear_expired_cache 100 (fun k => k == "a")
        [("a", .corrupt), ("b", .ok ⟨pay0, 0, 1⟩)]).2.completed = false
    ∧ (clear_expired_cache 100 (fun k => k == "a")
        [("a", .corrupt), ("b", .ok ⟨pay0, 0, 1⟩)]).2.fs
        = [("a", .corrupt), ("b", .ok ⟨pay0, 0, 1⟩)]
    ∧ shouldRemove 100 (.ok ⟨pay0, 0, 1⟩) = true
    ∧ get_cache_stats 100 (fun _ => 0) (fun k => k == "a")
        [("a", .corrupt), ("b", .ok ⟨pay0, 95, 3600⟩)] = none := by decide

/-- C7 amended. Per-entry read and deserialization failures are caught and
never abort a pass: with no `os.remove` or `os.path.getsize` fault, both
`clear_expired_cache` and `get_cache_stats` complete over every entry of
any directory, unreadable entries included. An `os.remove` failure during
the sweep, or an `os.path.getsize` failure during stats, escapes to the
outer handler and aborts the remainder of that pass. -/
theorem claim7_read_failures_survived (now : Int) (sz : String → Nat)
    (fs : FS) :
    (clear_expired_cache now (fun _ => false) fs).2.completed = true
    ∧ (get_cache_stats now sz (fun _ => false) fs).isSome = true := by
  constructor
  · unfold clear_expired_cache
    rw [sweepGo_noFault]
  · simp [get_cache_stats]

/-- C8. When the query function raises on a cache miss, `smart_cache_query`
catches the exception and returns `None` without writing any cache entry
(the directory is exactly what the failed load left), and a subsequent
call with the same key invokes the query function again — no negative
caching. -/
theorem claim8_failure_not_cached (now now₂ : Int) (fs : FS) (key : String)
    (ttl ttl₂ : Option Nat) (qr₂ : QueryResult)
    (hmiss : (load_from_disk_cache now fs key).1 = none) :
    smart_cache_query now fs key .raises ttl
      = (none, (load_from_disk_cache now fs key).2, 1)
    ∧ (smart_cache_query now₂ (load_from_disk_cache now fs key).2 key
        qr₂ ttl₂).2.2 = 1 := by
  have hstable := load_miss_stable now now₂ fs key hmiss
  constructor
  · rcases hload : load_from_disk_cache now fs key with ⟨v, fs'⟩
    rw [hload] at hmiss
    simp only at hmiss
    subst hmiss
    simp [smart_cache_query, hload]
  · rw [smart_cache_query, hstable]
    cases qr₂ with
    | raises => rfl
    | returns r =>
      cases r with
      | none => rfl
      | some p =>
        simp only
        split <;> rfl

/-- Witness for C8: a raise on an empty directory, re-queried one second
later. -/
theorem claim8_witness :
    smart_cache_query 0 [] "k" .raises none
      = (none, (load_from_disk_cache 0 [] "k").2, 1)
    ∧ (smart_cache_query 1 (load_from_disk_cache 0 [] "k").2 "k"
        (.returns (some pay0)) none).2.2 = 1 :=
  claim8_failure_not_cached 0 1 [] "k" none none (.returns (some pay0))
    (by decide)

/-- C9 counterexample. An empty result set is not cached: a cold
`smart_cache_query` whose query function returns an empty DataFrame hands
the empty payload back but writes nothing to the cache directory, and an
identical call immediately afterwards invokes the query function again —
contradicting the claim that an empty result is cached like any other
payload. -/
theorem claim9_empty_not_cached_cex :
    smart_cache_query 0 [] "k" (.returns (some payEmpty)) none
      = (some payEmpty, [], 1)
    ∧ (smart_cache_query 1 [] "k" (.returns (some payEmpty)) none).2.2
      = 1 := by decide

/-- C9 amended. At the wrapper's interface an empty result is returned as a
payload (`some`), distinct from a fetch failure (which surfaces as `None`)
and from a plain miss-then-success — but an empty result is never written
to the cache: `smart_cache_query` treats emptiness as non-cacheable, so
the empty payload is recomputed on every call rather than cached like
other payloads. -/
theorem claim9_empty_distinct_not_cached (now : Int) (fs : FS)
    (key : String) (ttl : Option Nat) (p : Payload)
    (hmiss : (load_from_disk_cache now fs key).1 = none)
    (hemp : p.is_empty = true) :
    smart_cache_query now fs key (.returns (some p)) ttl
      = (some p, (load_from_disk_cache now fs key).2, 1)
    ∧ smart_cache_query now fs key .raises ttl
      = (none, (load_from_disk_cache now fs key).2, 1)
    ∧ (some p : Option Payload) ≠ none := by
  rcases hload : load_from_disk_cache now fs key with ⟨v, fs'⟩
  rw [hload] at hmiss
  simp only at hmiss
  subst hmiss
  refine ⟨?_, ?_, by simp⟩
  · simp [smart_cache_query, hload, hemp]
  · simp [smart_cache_query, hload]

/-- Witness for C9's amended statement: an empty DataFrame fetched into an
empty directory. -/
theorem claim9_witness :
    smart_cache_query 3 [] "k" (.returns (some payEmpty)) none
      = (some payEmpty, (load_from_disk_cache 3 [] "k").2, 1)
    ∧ smart_cache_query 3 [] "k" .raises none
      = (none, (load_from_disk_cache 3 [] "k").2, 1)
    ∧ (some payEmpty : Option Payload) ≠ none :=
  claim9_empty_distinct_not_cached 3 [] "k" none payEmpty
    (by decide) (by decide)

/-- C10. During a sweep with no `os.remove` fault, `clear_expired_cache`
deletes every unreadable file as well as every expired one, counts each
such deletion in its cleared total, and visits every entry; afterwards
every remaining file in the cache directory is readable and unexpired. -/
theorem claim10_sweep_self_heal (now : Int) (fs : FS) :
    (clear_expired_cache now (fun _ => false) fs).2.completed = true
    ∧ (clear_expired_cache now (fun _ => false) fs).2.cleared
        = (fs.filter (fun q => shouldRemove now q.2)).length
    ∧ ((clear_expired_cache now (fun _ => false) fs).2.fs.all
        (fun q => !shouldRemove now q.2)) = true := by
  unfold clear_expired_cache
  rw [sweepGo_noFault]
  refine ⟨rfl, by simp, ?_⟩
  simp only [List.all_eq_true]
  intro q hq
  exact (List.mem_filter.mp hq).2

end CacheSpec
